import Mathlib

/-!
Verification of the em-dashboard core (src/dashboard.py): the mock data
engine `get_machine_status`, the maintenance database, the navigation
state (`set_view` / `select_machine` / the Back handler of `view_detail`),
and the maintenance-and-spares rendering of tab 2 of `view_detail`.

Numbers are modelled as `Int` where the Python code produces integers
(`np.random.randint`) and as `Rat` where it produces floating-point
readings; only comparisons and equality of these values occur in the
code, so no floating-point rounding is involved.

The random draws taken by `get_machine_status` (`np.random.randint` /
`np.random.uniform`) are modelled as an explicit `Draws` argument: one
invocation of the Python function corresponds to applying the Lean
function to the values the RNG happened to produce.
-/

namespace Dashboard

/-- The dict returned by `get_machine_status` (src/dashboard.py lines 78-101). -/
structure MachineData where
  status : String
  amps : Int
  vib : Rat
  temp : Int
  jams : Nat
  oee : Nat
  deriving Repr, DecidableEq

/-- The values drawn from `np.random` in the default healthy state of
`get_machine_status` (lines 80-82): `randint(380, 420)`,
`uniform(2.1, 3.5)`, `randint(60, 75)`. -/
structure Draws where
  amps : Int
  vib : Rat
  temp : Int
  deriving Repr, DecidableEq

/-- `get_machine_status` (src/dashboard.py lines 72-101): default healthy
data built from the random draws, then overridden for `"Mill 2"`
(CRITICAL) and `"Shredder 2"` (JAMMED). -/
def get_machine_status (machine_name : String) (d : Draws) : MachineData :=
  let data : MachineData :=
    { status := "RUNNING", amps := d.amps, vib := d.vib, temp := d.temp,
      jams := 0, oee := 88 }
  let data :=
    if machine_name = "Mill 2" then
      { data with status := "CRITICAL", vib := 12.5, temp := 88, amps := 450 }
    else data
  if machine_name = "Shredder 2" then
    { data with status := "JAMMED", amps := 0, jams := 4, vib := 2.9 }
  else data

/-- One row of `maintenance_db` (src/dashboard.py lines 104-112). -/
structure MaintRow where
  Next : String
  Due : String
  Spare_Status : String
  deriving Repr, DecidableEq

/-- `maintenance_db` (src/dashboard.py lines 104-112). -/
def maintenance_db : List (String × MaintRow) :=
  [ ("Shredder 1", ⟨"Blade Rotation", "140 hrs", "OK"⟩),
    ("Shredder 2", ⟨"Hardfacing", "12 hrs", "OK"⟩),
    ("Mill 1", ⟨"Greasing", "4 hrs", "OK"⟩),
    ("Mill 2", ⟨"Bearing Replacement", "OVERDUE", "MISSING"⟩),
    ("Mill 3", ⟨"Filter Change", "200 hrs", "OK"⟩),
    ("Unit 2 Shredder", ⟨"Gear Oil", "48 hrs", "LOW"⟩),
    ("Unit 2 Crusher", ⟨"Liner Check", "72 hrs", "OK"⟩) ]

/-- Python `maintenance_db.get(name)` as an `Option` (lookup only; the
`{}` default of line 233 is handled at the use site, `renderMaintTab`). -/
def dbGet (name : String) : Option MaintRow :=
  (maintenance_db.find? (fun p => p.1 = name)).map Prod.snd

/-- The Streamlit session navigation state: `st.session_state.current_view`
and `st.session_state.selected_machine` (src/dashboard.py lines 117-120). -/
structure NavState where
  current_view : String
  selected_machine : Option String
  deriving Repr, DecidableEq

/-- The initial session state (lines 117-120): view `"Unit 1"`, no
machine selected. -/
def initState : NavState := ⟨"Unit 1", none⟩

/-- `set_view` (lines 122-124): sets the view and resets the machine
selection. -/
def set_view (view : String) (_s : NavState) : NavState :=
  ⟨view, none⟩

/-- `select_machine` (lines 126-128): unconditionally switches to the
Detail view with the given machine selected. -/
def select_machine (name : String) (_s : NavState) : NavState :=
  ⟨"Detail", some name⟩

/-- The Unit 1 machine list, as rendered by `view_unit_1`
(lines 193-203) and as tested by the Back handler of `view_detail`
(line 225). -/
def unit1Machines : List String :=
  ["Shredder 1", "Shredder 2", "Mill 1", "Mill 2", "Mill 3"]

/-- The Unit 2 machine list, as rendered by `view_unit_2`
(lines 213-218). -/
def unit2Machines : List String :=
  ["Unit 2 Shredder", "Unit 2 Crusher"]

/-- The fleet: every machine rendered by either overview. -/
def fleet : List String := unit1Machines ++ unit2Machines

/-- The Back handler of `view_detail` (src/dashboard.py lines 223-229):
only reachable while the Detail view is active; returns to `"Unit 1"`
when the selected machine is in the Unit 1 list, else to `"Unit 2"`.
A `none` selection falls to the `"Unit 2"` branch, as the Python test
`None in [...]` is `False`. -/
def back (s : NavState) : NavState :=
  if s.current_view = "Detail" then
    match s.selected_machine with
    | some name =>
        if unit1Machines.contains name then set_view "Unit 1" s
        else set_view "Unit 2" s
    | none => set_view "Unit 2" s
  else s

/-- The two production units. -/
inductive FleetUnit
  | Unit1
  | Unit2
  deriving Repr, DecidableEq

/-- The unit a machine belongs to, read off the overview that renders
it (`view_unit_1` lines 193-203, `view_unit_2` lines 213-218). -/
def unitOf (name : String) : Option FleetUnit :=
  if unit1Machines.contains name then some .Unit1
  else if unit2Machines.contains name then some .Unit2
  else none

/-- The view string of the overview of a unit, as set by the sidebar buttons
(lines 312-317). -/
def overviewView : FleetUnit → String
  | .Unit1 => "Unit 1"
  | .Unit2 => "Unit 2"

/-- The user events the controller reacts to: the sidebar unit buttons
(lines 312-317), the machine-card select buttons (lines 176-178), and
the Back button (lines 223-229). -/
inductive Event
  | SelectUnit (u : FleetUnit)
  | SelectMachine (id : String)
  | Back
  deriving Repr, DecidableEq

/-- One event dispatch: the session-state transition the app performs for
each event. `Back` outside the Detail view leaves the state unchanged
(the button only exists in `view_detail`). -/
def step (s : NavState) (e : Event) : NavState :=
  match e with
  | .SelectUnit u => set_view (overviewView u) s
  | .SelectMachine id => select_machine id s
  | .Back => back s

/-- Run a sequence of events from the initial session state. -/
def run (events : List Event) : NavState :=
  events.foldl step initState

/-- The navigation invariant of the spec: in the Detail view a machine is
selected; in any other view none is. -/
def NavInv (s : NavState) : Prop :=
  (s.current_view = "Detail" → s.selected_machine ≠ none) ∧
  (s.current_view ≠ "Detail" → s.selected_machine = none)

/-! ### The maintenance-and-spares tab of `view_detail`

`view_detail` (src/dashboard.py lines 232-296) fetches
`maint = maintenance_db.get(name, {})` and then renders tab 2 by
indexing `maint[Next]`, `maint[Due]` and `maint[Spare_Status]`
unconditionally. On the empty-dict default the first such index raises
a Python `KeyError`; we model the rendering as an `Except`. -/

/-- A Streamlit output element produced by tab 2 of `view_detail`:
`st.info` / `st.error` / `st.success` / `st.warning`, plus the
`st.markdown` alert box of lines 286-292 with its heading and its two
paragraph signals. -/
inductive Widget
  | info (msg : String)
  | error (msg : String)
  | success (msg : String)
  | warning (msg : String)
  | alertBox (heading : String) (body : String) (footer : String)
  deriving Repr, DecidableEq

/-- A raised Python exception. -/
inductive PyError
  | KeyError (key : String)
  deriving Repr, DecidableEq

/-- The widgets tab 2 of `view_detail` renders for a present maintenance
record (src/dashboard.py lines 272-296): the maintenance-schedule
column (the Next Job info, then either the JOB OVERDUE error or the
due-in success), then the spares column. On `Spare_Status == "MISSING"`
the code checks only the spare status (line 285; the comment at
line 284 announces a missing-AND-due conjunction the code does not
implement) and emits one `st.markdown` alert box whose heading and
body carry the SPARES MISSING signal and whose footer carries the
ORDER IMMEDIATELY signal (lines 286-292). -/
def renderTab2 (maint : MaintRow) : List Widget :=
  [.info ("**Next Job:** " ++ maint.Next)] ++
  (if maint.Due = "OVERDUE" then [.error "🚨 JOB OVERDUE"]
   else [.success ("Due in: " ++ maint.Due)]) ++
  (if maint.Spare_Status = "MISSING" then
    [.alertBox "🚫 SPARES MISSING"
      ("Cannot perform " ++ maint.Next ++ ". Spare parts stock is 0.")
      "⚠️ ORDER IMMEDIATELY"]
   else if maint.Spare_Status = "LOW" then
    [.warning "⚠️ Stock Low: Re-order suggested."]
   else [.success "✅ Spares Available"])

/-- Recognizer for the combined spares alert-box widget of
lines 286-292. -/
def isAlertBox : Widget → Bool
  | .alertBox _ _ _ => true
  | _ => false

/-- Tab 2 of `view_detail` (src/dashboard.py lines 269-296) for a
selected machine `name`, after `maint = maintenance_db.get(name, {})`
(line 233). When no record exists, `maint` is `{}` and the very first
access `maint[Next]` (line 274) raises a KeyError for key Next;
otherwise the tab renders as `renderTab2`. -/
def renderMaintTab (name : String) : Except PyError (List Widget) :=
  match dbGet name with
  | none => .error (.KeyError "Next")
  | some maint => .ok (renderTab2 maint)

/-! ### Spec-modelled Status Classifier

The Status Classifier of the spec (`classify`, §4.1) is not implemented
anywhere in src/dashboard.py: no status is derived from sensor values —
statuses are hardcoded per machine name in `get_machine_status`, which
spec §9 itself calls a demo artifact to be replaced by the general rule.
The definitions below model that missing classifier from the words of
the spec. The Alert Engine, by contrast, is present in src (inlined in
tab 2 of `view_detail`) and is embedded above as `renderTab2` /
`renderMaintTab`; the alert claims are settled against that code. -/

/-- The sensor snapshot of the spec: `Reading` (§3). -/
structure Reading where
  amps : Rat
  vibration : Rat
  temperature : Rat
  jamCount : Nat
  deriving Repr, DecidableEq

/-- The discrete machine status of the spec (§3). -/
inductive MachineStatus
  | Running
  | Jammed
  | Critical
  deriving Repr, DecidableEq

/-- Modelled from the spec: `classify(reading) -> MachineStatus` (§4.1),
missing from src/dashboard.py (statuses there are hardcoded by machine
name). First match wins: vibration above 8.0 is Critical; zero amps
with recorded jams is Jammed; otherwise Running. -/
def classify (r : Reading) : MachineStatus :=
  if r.vibration > 8 then .Critical
  else if r.amps = 0 ∧ r.jamCount > 0 then .Jammed
  else .Running

end Dashboard

/-! ## Helper lemmas -/

namespace Dashboard

/-- Each single event dispatch preserves the navigation invariant. -/
theorem navInv_step (s : NavState) (e : Event) (h : NavInv s) :
    NavInv (step s e) := by
  cases e with
  | SelectUnit u => cases u <;> simp [step, set_view, overviewView, NavInv]
  | SelectMachine id => simp [step, select_machine, NavInv]
  | Back =>
      by_cases hv : s.current_view = "Detail"
      · cases hsel : s.selected_machine with
        | none => simp [step, back, hv, hsel, set_view, NavInv]
        | some m =>
            by_cases hm : m ∈ unit1Machines <;>
              simp [step, back, hv, hsel, hm, set_view, NavInv]
      · simpa [step, back, hv] using h

/-- The initial session state satisfies the navigation invariant. -/
theorem navInv_init : NavInv initState := by
  simp [initState, NavInv]

/-- Folding `step` over any event list preserves the invariant. -/
theorem navInv_foldl (l : List Event) :
    ∀ s : NavState, NavInv s → NavInv (l.foldl step s) := by
  induction l with
  | nil => intro s h; simpa using h
  | cons e t ih => intro s h; exact ih (step s e) (navInv_step s e h)

end Dashboard

/-! ## Claim theorems -/

namespace Dashboard

/-- C1 counterexample: at the concrete Overdue-and-Missing record of
Mill 2, tab 2 of view_detail renders three widgets — the Next Job info,
the Critical JOB OVERDUE error, and exactly ONE spares alert element:
the single combined alert box carrying both spares signals (its
heading/body and its footer). The two spares signals are collapsed
into one alert, and the output holds one spares widget, not two. -/
theorem renderTab2_overdue_missing_one_box :
    renderTab2 ⟨"Bearing Replacement", "OVERDUE", "MISSING"⟩ =
      [.info "**Next Job:** Bearing Replacement",
       .error "🚨 JOB OVERDUE",
       .alertBox "🚫 SPARES MISSING"
         "Cannot perform Bearing Replacement. Spare parts stock is 0."
         "⚠️ ORDER IMMEDIATELY"] ∧
    ((renderTab2 ⟨"Bearing Replacement", "OVERDUE", "MISSING"⟩).filter
        isAlertBox).length = 1 :=
  ⟨rfl, rfl⟩

/-- C1 amended: for every record with Due = OVERDUE and
Spare_Status = MISSING, tab 2 of view_detail emits the Critical
JOB OVERDUE error together with a single combined spares alert box in
which the SPARES MISSING cannot-perform signal (heading and body) and
the ORDER IMMEDIATELY signal (footer) always co-occur — as one widget,
not as two separate alerts. -/
theorem renderTab2_overdue_missing (job : String) :
    renderTab2 ⟨job, "OVERDUE", "MISSING"⟩ =
      [.info ("**Next Job:** " ++ job),
       .error "🚨 JOB OVERDUE",
       .alertBox "🚫 SPARES MISSING"
         ("Cannot perform " ++ job ++ ". Spare parts stock is 0.")
         "⚠️ ORDER IMMEDIATELY"] :=
  rfl

/-- C2 counterexample: at a concrete record with Spare_Status = MISSING
and a NON-overdue due state, tab 2 of view_detail still renders the
spares alert box with the ORDER IMMEDIATELY footer next to the due-in
success widget — the code (line 285) checks only the spare status, so
the ORDER IMMEDIATELY signal is not restricted to the Overdue case. -/
theorem renderTab2_order_immediately_not_overdue :
    renderTab2 ⟨"Hardfacing", "12 hrs", "MISSING"⟩ =
      [.info "**Next Job:** Hardfacing",
       .success "Due in: 12 hrs",
       .alertBox "🚫 SPARES MISSING"
         "Cannot perform Hardfacing. Spare parts stock is 0."
         "⚠️ ORDER IMMEDIATELY"] :=
  rfl

/-- C2 amended: for every maintenance record, tab 2 of view_detail
emits the combined spares alert box — the SPARES MISSING signal with
the ORDER IMMEDIATELY footer — exactly when Spare_Status = MISSING,
regardless of the due state (the comment at line 284 announces a
missing-AND-due conjunction, but line 285 tests only the spare
status). -/
theorem renderTab2_missing_order_immediately (maint : MaintRow) :
    (Widget.alertBox "🚫 SPARES MISSING"
        ("Cannot perform " ++ maint.Next ++ ". Spare parts stock is 0.")
        "⚠️ ORDER IMMEDIATELY") ∈ renderTab2 maint ↔
      maint.Spare_Status = "MISSING" := by
  obtain ⟨nextJob, due, spare⟩ := maint
  by_cases hd : due = "OVERDUE" <;> by_cases hs : spare = "MISSING" <;>
    by_cases hl : spare = "LOW" <;>
      simp [renderTab2, hd, hs, hl]

/-- C3: every Reading with vibration above 8.0 classifies as Critical,
whatever the other fields. -/
theorem classify_high_vibration (r : Reading) (h : r.vibration > 8) :
    classify r = .Critical := by
  unfold classify
  rw [if_pos h]

/-- Witness for C3 at the Reading the code hardcodes for Mill 2
(vibration 12.5, amps 450, temperature 88, no jams). -/
theorem classify_high_vibration_witness :
    (12.5 : Rat) > 8 ∧ classify ⟨450, 12.5, 88, 0⟩ = .Critical :=
  ⟨by norm_num, classify_high_vibration ⟨450, 12.5, 88, 0⟩ (by norm_num)⟩

/-- C4: a Reading with amps = 0, jamCount = 0 and vibration at most 8.0
classifies as Running, not Jammed. -/
theorem classify_planned_stop (r : Reading) (ha : r.amps = 0)
    (hj : r.jamCount = 0) (hv : r.vibration ≤ 8) :
    classify r = .Running := by
  unfold classify
  rw [if_neg (not_lt.mpr hv), if_neg]
  simp [hj]

/-- Witness for C4 at the Reading (amps 0, vibration 3, temperature 70,
jamCount 0). -/
theorem classify_planned_stop_witness :
    classify ⟨0, 3, 70, 0⟩ = .Running :=
  classify_planned_stop ⟨0, 3, 70, 0⟩ rfl rfl (by norm_num)

/-- C5 counterexample: two invocations of get_machine_status on the same
machine name with different random draws return different data (the
reported amps differ), so the function is not deterministic in the
machine alone, and there is no Reading input to fix. -/
theorem get_machine_status_not_deterministic :
    get_machine_status "Mill 1" ⟨400, 3, 70⟩ ≠
      get_machine_status "Mill 1" ⟨401, 3, 70⟩ := by
  decide

/-- C5 amended: the status field of get_machine_status depends only on
the machine name — any two invocations on the same machine report the
same status, whatever the random draws; the other reported sensor
values may differ between invocations. -/
theorem get_machine_status_status_deterministic (name : String)
    (d₁ d₂ : Draws) :
    (get_machine_status name d₁).status = (get_machine_status name d₂).status := by
  by_cases h1 : name = "Mill 2" <;> by_cases h2 : name = "Shredder 2" <;>
    simp [get_machine_status, h1, h2]

/-- C6: from the initial session state, every sequence of SelectUnit,
SelectMachine and Back events preserves the navigation invariant: in
the Detail view a machine is selected, in any other view none is. -/
theorem navInv_run (events : List Event) : NavInv (run events) :=
  navInv_foldl events initState navInv_init

/-- Witness for C6: after selecting Mill 2 the state is in Detail, so
the invariant yields a non-null selection. -/
theorem navInv_run_witness :
    (run [.SelectMachine "Mill 2"]).selected_machine ≠ none :=
  (navInv_run [.SelectMachine "Mill 2"]).1 (by decide)

/-- C7 counterexample: dispatching SelectMachine on a name that belongs
to no known machine does not fail and does not leave the state
unchanged — select_machine switches to Detail with that name selected. -/
theorem select_machine_unknown_changes_state :
    select_machine "Nonexistent" initState ≠ initState := by
  decide

/-- C7 amended: select_machine performs no known-machine validation: for
every id outside the fleet (and indeed any id) it still sets the view
to Detail and selects that id; no UnknownMachine error path exists. -/
theorem select_machine_no_validation (id : String)
    (h : fleet.contains id = false) (s : NavState) :
    select_machine id s = ⟨"Detail", some id⟩ := rfl

/-- Witness for C7 amended at the unknown id Nonexistent. -/
theorem select_machine_no_validation_witness :
    fleet.contains "Nonexistent" = false ∧
      select_machine "Nonexistent" initState = ⟨"Detail", some "Nonexistent"⟩ :=
  ⟨by decide, select_machine_no_validation "Nonexistent" (by decide) initState⟩

/-- C8: when no maintenance record exists for the selected machine, the
maintenance tab of view_detail does not render a degraded view — the
unconditional index maint[Next] on the empty-dict default raises a
KeyError, failing the view. -/
theorem renderMaintTab_missing_record_raises (name : String)
    (h : dbGet name = none) :
    renderMaintTab name = .error (.KeyError "Next") := by
  unfold renderMaintTab
  rw [h]

/-- Witness for C8 at a machine name absent from maintenance_db. -/
theorem renderMaintTab_missing_record_raises_witness :
    dbGet "Conveyor 9" = none ∧
      renderMaintTab "Conveyor 9" = .error (.KeyError "Next") :=
  ⟨by decide, renderMaintTab_missing_record_raises "Conveyor 9" (by decide)⟩

/-- C9: from the Detail view of a known machine, Back returns to the
overview of the unit that machine belongs to and clears the selection. -/
theorem back_returns_to_unit_overview (m : String) (u : FleetUnit)
    (h : unitOf m = some u) :
    back ⟨"Detail", some m⟩ = ⟨overviewView u, none⟩ := by
  by_cases h1 : m ∈ unit1Machines
  · have hu : u = .Unit1 := by simp [unitOf, h1] at h; exact h.symm
    subst hu
    simp [back, set_view, h1, overviewView]
  · by_cases h2 : m ∈ unit2Machines
    · have hu : u = .Unit2 := by simp [unitOf, h1, h2] at h; exact h.symm
      subst hu
      simp [back, set_view, h1, overviewView]
    · simp [unitOf, h1, h2] at h

/-- Witness for C9: Back from Detail on Mill 2 (a Unit 1 machine) yields
the Unit 1 overview with no machine selected. -/
theorem back_returns_to_unit_overview_witness :
    unitOf "Mill 2" = some .Unit1 ∧
      back ⟨"Detail", some "Mill 2"⟩ = ⟨overviewView .Unit1, none⟩ :=
  ⟨by decide, back_returns_to_unit_overview "Mill 2" .Unit1 (by decide)⟩

/-- C10: the status reported by get_machine_status is a function of the
machine name alone, whatever the random draws: Mill 2 reports CRITICAL,
Shredder 2 reports JAMMED with amps 0 and 4 jams, and every other name
reports RUNNING with 0 jams. -/
theorem get_machine_status_by_name (name : String) (d : Draws) :
    (get_machine_status name d).status =
      (if name = "Mill 2" then "CRITICAL"
       else if name = "Shredder 2" then "JAMMED" else "RUNNING") ∧
    (name = "Shredder 2" →
      (get_machine_status name d).amps = 0 ∧ (get_machine_status name d).jams = 4) ∧
    (name ≠ "Mill 2" → name ≠ "Shredder 2" →
      (get_machine_status name d).jams = 0) := by
  by_cases h1 : name = "Mill 2" <;> by_cases h2 : name = "Shredder 2" <;>
    simp [get_machine_status, h1, h2]

/-- Witness for C10: a machine outside the two special cases reports
RUNNING with 0 jams, by the general theorem. -/
theorem get_machine_status_by_name_witness :
    (get_machine_status "Mill 3" ⟨390, 3, 65⟩).status = "RUNNING" ∧
      (get_machine_status "Mill 3" ⟨390, 3, 65⟩).jams = 0 := by
  have h := get_machine_status_by_name "Mill 3" ⟨390, 3, 65⟩
  refine ⟨?_, h.2.2 (by decide) (by decide)⟩
  have := h.1
  simpa using this

end Dashboard
